import Mathlib

/-!
Shallow embedding of the `ai-diet-coach-line` repository.

Sources embedded:
* `ai_diet_coach/core.py` — metabolic calculator (`calculate_bmr`,
  `activity_factor`, `calculate_tdee`, `build_plan`), trend analyzer
  (`suggest_after_log`, `summarise_history`), `progress_bar`,
  `validate_profile`.
* `line_bot/app.py` — the webhook message handler (`callback` body for a
  text message), modelled as a pure step function `handle_text` from a
  session state and an input text to an outcome (new state, what was
  persisted, and the reply text), with an explicit `crash` constructor for
  Python exceptions that escape the handler uncaught.

Modelling conventions:
* Python `float` is modelled as `ℚ` (exact rational arithmetic); the
  claims under study do not depend on binary floating-point artefacts.
* Python `round` (banker's rounding, half to even) is `pyRound`;
  `round(x, 2)` is `round2`.
* Python `int(s)` / `float(s)` string conversions are `parseIntPy` /
  `parseFloatPy`, covering plain decimal literals with optional sign,
  optional fractional part and surrounding whitespace (the exotic float
  syntaxes `inf`/`nan`/exponents/underscores are not modelled; no claim
  depends on them).  A failed conversion is `none` = Python `ValueError`.
* Python `str` helpers used by the handler (`strip`, `lower`, `split()`,
  `startswith`) are re-implemented structurally on the character list so
  that concrete runs reduce inside the kernel (`pyStrip`, `pyLower`,
  `pySplitWS`, `pyStartsWith`); `lower` is modelled on ASCII letters,
  which covers every string the handler compares against.
* `datetime` timestamps are rationals counting days; `timedelta.days` of
  a difference is `daysBetween` = the floor of the difference in days,
  matching Python's normalisation of negative timedeltas.
-/

deriving instance DecidableEq for Except

/-- Python's `round(x)` on an exact value: round half to even. -/
def pyRound (q : ℚ) : ℤ :=
  let f := ⌊q⌋
  let r := q - f
  if r < 1/2 then f
  else if 1/2 < r then f + 1
  else if f % 2 = 0 then f else f + 1

/-- Python's `round(x, 2)`. -/
def round2 (q : ℚ) : ℚ := (pyRound (q * 100) : ℚ) / 100

/-- Accumulate a decimal digit string; `none` if a non-digit appears. -/
def digitsValCore : List Char → ℕ → Option ℕ
  | [], acc => some acc
  | c :: cs, acc =>
    if c.isDigit then digitsValCore cs (10 * acc + (c.toNat - 48)) else none

/-- Value of a non-empty all-digit string. -/
def digitsVal? (cs : List Char) : Option ℕ :=
  match cs with
  | [] => none
  | _ :: _ => digitsValCore cs 0

/-- Drop leading and trailing whitespace from a character list. -/
def listTrim (cs : List Char) : List Char :=
  ((cs.dropWhile Char.isWhitespace).reverse.dropWhile Char.isWhitespace).reverse

/-- Python `s.strip()`. -/
def pyStrip (s : String) : String := String.mk (listTrim s.data)

/-- ASCII lower-casing of one character (model of Python `str.lower`). -/
def lowerChar (c : Char) : Char :=
  if 'A' ≤ c ∧ c ≤ 'Z' then Char.ofNat (c.toNat + 32) else c

/-- Python `s.lower()` (ASCII model). -/
def pyLower (s : String) : String := String.mk (s.data.map lowerChar)

/-- Python `int(s)`: optional surrounding whitespace, optional sign,
decimal digits. -/
def parseIntPy (s : String) : Option ℤ :=
  match listTrim s.data with
  | '-' :: rest => (digitsVal? rest).map (fun n => -(n : ℤ))
  | '+' :: rest => (digitsVal? rest).map (fun n => (n : ℤ))
  | cs => (digitsVal? cs).map (fun n => (n : ℤ))

/-- Unsigned part of Python `float(s)`: `digits`, `digits.`, `digits.digits`
or `.digits`. -/
def parseUnsignedFloat (cs : List Char) : Option ℚ :=
  let ip := cs.takeWhile Char.isDigit
  match cs.dropWhile Char.isDigit with
  | [] => (digitsVal? ip).map (fun n => (n : ℚ))
  | '.' :: frac =>
    if frac.all Char.isDigit && (!ip.isEmpty || !frac.isEmpty) then
      match digitsValCore ip 0, digitsValCore frac 0 with
      | some a, some b => some ((a : ℚ) + (b : ℚ) / 10 ^ frac.length)
      | _, _ => none
    else none
  | _ => none

/-- Python `float(s)` on plain decimal literals. -/
def parseFloatPy (s : String) : Option ℚ :=
  match listTrim s.data with
  | '-' :: rest => (parseUnsignedFloat rest).map (fun q => -q)
  | '+' :: rest => parseUnsignedFloat rest
  | cs => parseUnsignedFloat cs

/-! ## `ai_diet_coach/core.py` — calculations -/

/-- `core.calculate_bmr`: Mifflin–St Jeor; `ValueError` when the
lower-cased sex is not `male`/`female` is the `.error` branch. -/
def calculate_bmr (sex : String) (weight_kg height_cm : ℚ) (age : ℤ) :
    Except String ℚ :=
  let s := pyLower sex
  if s = "male" ∨ s = "female" then
    let base := 10 * weight_kg + 6.25 * height_cm - 5 * (age : ℚ)
    .ok (round2 (base + if s = "male" then 5 else -161))
  else .error "sex must be 'male' or 'female'"

/-- `core.activity_factor`. -/
def activity_factor (activity : String) : Except String ℚ :=
  if activity = "sedentary" then .ok 1.2
  else if activity = "light" then .ok 1.375
  else if activity = "moderate" then .ok 1.55
  else if activity = "active" then .ok 1.725
  else if activity = "very_active" then .ok 1.9
  else .error "activity must be one of: sedentary, light, moderate, active, very_active"

/-- `core.calculate_tdee`. -/
def calculate_tdee (bmr : ℚ) (activity : String) : Except String ℚ :=
  match activity_factor activity with
  | .error e => .error e
  | .ok f => .ok (round2 (bmr * f))

/-- The dict returned by `core.build_plan` (numbers kept exact; all-integer
fields are the `round(...)` results). -/
structure Plan where
  bmr : ℚ
  tdee : ℚ
  maintenance_kcal : ℤ
  target_kcal : ℤ
  delta_kcal : ℤ
  mode : String
  protein_g : ℤ
  fat_g : ℤ
  carb_g : ℤ
  notes : List String
deriving DecidableEq

instance : Inhabited Plan :=
  ⟨⟨0, 0, 0, 0, 0, "", 0, 0, 0, []⟩⟩

/-- Advisory note appended by `build_plan` when the daily delta was capped. -/
def capNote : String := "安全のため日次の増減を±750/500 kcalに制限しました。"

/-- `(mode or "recomp").lower()` (`core.py` line 54). -/
def modeCalc (mode : String) : String :=
  if mode = "" then "recomp" else pyLower mode

/-- `raw_daily = delta_kg * 7700.0 / deadline_days` (`core.py` lines 58-59). -/
def rawDaily (weight_kg gw : ℚ) (dd : ℤ) : ℚ :=
  (gw - weight_kg) * 7700 / (dd : ℚ)

/-- `daily_change = max(min(raw_daily, 500.0), -750.0)` (`core.py` line 61). -/
def clampDaily (raw : ℚ) : ℚ := max (min raw 500) (-750)

/-- `core.py` lines 52-64: the pair (daily delta, notes) from the
goal/deadline targeting block; `(0, [])` when goal or deadline is absent
or the deadline is not positive. -/
def planDeltaNotes (weight_kg : ℚ) (goal_weight : Option ℚ)
    (deadline_days : Option ℤ) : ℚ × List String :=
  match goal_weight, deadline_days with
  | some gw, some dd =>
    if 0 < dd then
      (clampDaily (rawDaily weight_kg gw dd),
        if 1/1000000 < |rawDaily weight_kg gw dd - clampDaily (rawDaily weight_kg gw dd)|
        then [capNote] else [])
    else (0, [])
  | _, _ => (0, [])

/-- `core.py` lines 66-73: fallback to the mode presets when the delta
is 0. -/
def planDelta (mode_calc : String) (dn1 : ℚ) : ℚ :=
  if dn1 = 0 then
    if mode_calc = "cut" then -500
    else if mode_calc = "bulk" then 300
    else 0
  else dn1

/-- The body of `core.build_plan` after the `bmr`/`tdee` computations
succeeded (`core.py` lines 52-95): delta from goal/deadline with safety
cap, fallback to mode presets when the delta is 0, target with the
1200 kcal floor, macros. -/
def build_plan_core (bmr tdee weight_kg : ℚ) (mode : String)
    (goal_weight : Option ℚ) (deadline_days : Option ℤ) : Plan :=
  let dn := planDeltaNotes weight_kg goal_weight deadline_days
  let delta_kcal := planDelta (modeCalc mode) dn.1
  let target_kcal := max (pyRound (tdee + delta_kcal)) 1200
  let maintenance := pyRound tdee
  let protein_g := max (2 * weight_kg) (1.6 * weight_kg)
  let fat_g := max (0.6 * weight_kg) 40
  let remaining := max ((target_kcal : ℚ) - (protein_g * 4 + fat_g * 9)) 100
  let carb_g := remaining / 4
  { bmr := bmr, tdee := tdee, maintenance_kcal := maintenance,
    target_kcal := target_kcal, delta_kcal := pyRound delta_kcal,
    mode := modeCalc mode, protein_g := pyRound protein_g,
    fat_g := pyRound fat_g, carb_g := pyRound carb_g,
    notes := dn.2 }

/-- `core.build_plan`.  Exceptions raised by `calculate_bmr` /
`activity_factor` propagate as `.error`. -/
def build_plan (sex : String) (age : ℤ) (height_cm weight_kg : ℚ)
    (activity mode : String) (goal_weight : Option ℚ)
    (deadline_days : Option ℤ) : Except String Plan :=
  match calculate_bmr sex weight_kg height_cm age with
  | .error e => .error e
  | .ok bmr =>
    match calculate_tdee bmr activity with
    | .error e => .error e
    | .ok tdee =>
      .ok (build_plan_core bmr tdee weight_kg mode goal_weight deadline_days)

/-- Project the plan out of a `build_plan` result (default plan on error). -/
def getPlan (r : Except String Plan) : Plan :=
  match r with
  | .ok p => p
  | .error _ => default

/-! ## `ai_diet_coach/core.py` — weight logging & suggestions -/

/-- One entry of the weight history: timestamp in (fractional) days and
weight in kg. -/
structure WeightEntry where
  date : ℚ
  weight : ℚ
deriving DecidableEq

/-- Python `history[-n:]` (note `history[-0:]` is the whole list). -/
def lastWindow (history : List WeightEntry) (n : ℕ) : List WeightEntry :=
  if n = 0 then history else history.drop (history.length - n)

/-- `(a - b).days` for two timestamps in days: the day component of a
normalised `timedelta`, i.e. the floor of the difference. -/
def daysBetween (a b : ℚ) : ℤ := ⌊a - b⌋

/-- Messages of `suggest_after_log` (verbatim from `core.py`). -/
def msgStartLogging : String := "ログを続けましょう。まずは1〜2週間、同じ条件で測定を。"

def msgCutTooFast : String := "減量が速すぎるかも。炭水化物を+20〜40gか、総カロリー+100〜150kcalを検討。"

def msgCutGaining : String := "体重が増えています。就寝前の間食を見直し、活動量の確保を。"

def msgCutGood : String := "良いペースです。この調子で。タンパク質は2g/kg確保を。"

def msgBulkTooFast : String := "増量が速いかも。脂質を-10gまたは総カロリー-100kcalを検討。"

def msgBulkSlow : String := "増えづらい場合は炭水化物+30〜50gを試して。"

def msgBulkGood : String := "良い増量ペース。トレ前後の炭水化物を意識。"

def msgRecompFlat : String := "体重は概ね維持。フォームと睡眠を整えて質を上げよう。"

def msgRecompFluct : String := "維持期でも上下はあります。1〜2週間の平均で見ていきましょう。"

/-- `core.suggest_after_log`. -/
def suggest_after_log (history : List WeightEntry) (mode : String)
    (recent_window : ℕ) : String :=
  match history with
  | [] => msgStartLogging
  | h :: t =>
    let m := if mode = "" then "recomp" else pyLower mode
    let last := lastWindow (h :: t) recent_window
    let daily_change : ℚ :=
      if 2 ≤ last.length then
        match last.head?, last.getLast? with
        | some f, some l =>
          let delta := l.weight - f.weight
          let d := daysBetween l.date f.date
          delta / ((if d = 0 then 1 else d : ℤ) : ℚ)
        | _, _ => 0
      else 0
    if m = "cut" then
      if daily_change < -0.15 then msgCutTooFast
      else if 0.05 < daily_change then msgCutGaining
      else msgCutGood
    else if m = "bulk" then
      if 0.25 < daily_change then msgBulkTooFast
      else if daily_change < 0.05 then msgBulkSlow
      else msgBulkGood
    else
      if |daily_change| < 0.05 then msgRecompFlat
      else msgRecompFluct

/-- Fields of the non-empty summary dict of `summarise_history`
(`from`/`to` are the day numbers of the ISO dates). -/
structure SummaryData where
  count : ℕ
  fromDay : ℤ
  toDay : ℤ
  start : ℚ
  endw : ℚ
  avg : ℚ
  delta : ℚ
  trend : String
deriving DecidableEq

/-- Result of `summarise_history`: the `{count: 0}` dict or a full summary. -/
inductive HistorySummary where
  | empty
  | full (d : SummaryData)
deriving DecidableEq

/-- The `count` key (0 for the empty summary). -/
def HistorySummary.count : HistorySummary → ℕ
  | .empty => 0
  | .full d => d.count

/-- The `delta` key, absent on the empty summary. -/
def HistorySummary.deltaVal? : HistorySummary → Option ℚ
  | .empty => none
  | .full d => some d.delta

/-- The `trend` key, absent on the empty summary. -/
def HistorySummary.trendVal? : HistorySummary → Option String
  | .empty => none
  | .full d => some d.trend

/-- `core.summarise_history`. -/
def summarise_history (history : List WeightEntry) (days : ℤ) :
    HistorySummary :=
  match history.getLast? with
  | none => .empty
  | some lastE =>
    let cutoff := lastE.date
    let window := history.filter (fun x => decide (daysBetween cutoff x.date ≤ days))
    match window with
    | [] => .empty
    | w :: ws =>
      let weights := (w :: ws).map (fun x => x.weight)
      let startw := w.weight
      let endw := (ws.getLastD w).weight
      let delta := endw - startw
      let avg := round2 (weights.sum / (weights.length : ℚ))
      let trend := if delta < -0.3 then "↘" else if 0.3 < delta then "↗" else "→"
      .full { count := (w :: ws).length, fromDay := ⌊w.date⌋,
              toDay := ⌊(ws.getLastD w).date⌋, start := round2 startw,
              endw := round2 endw, avg := avg, delta := round2 delta,
              trend := trend }

/-! ## `ai_diet_coach/core.py` — profile helpers -/

/-- The clamp `done = max(0, min(done, total))` of `progress_bar`. -/
def doneClamp (done total : ℤ) : ℤ := max 0 (min done total)

/-- `filled = math.floor(width * done / total) if total else 0`. -/
def filledCells (done total width : ℤ) : ℤ :=
  if total = 0 then 0 else ⌊((width * doneClamp done total : ℤ) : ℚ) / (total : ℚ)⌋

/-- Python `s * n` for a string and an int (empty for `n ≤ 0`). -/
def strRepeat (s : String) (n : ℤ) : String :=
  String.join (List.replicate n.toNat s)

/-- `core.progress_bar`. -/
def progress_bar (done total width : ℤ) : String :=
  let d := doneClamp done total
  let filled := filledCells done total width
  "【" ++ strRepeat "█" filled ++ strRepeat "░" (width - filled) ++ "】 "
    ++ toString d ++ "/" ++ toString total

/-! ## `line_bot/app.py` — session state and dict model -/

/-- A Python value stored in the profile dict: a string, an int, a float,
or `None`. -/
inductive PVal where
  | str (s : String)
  | int (n : ℤ)
  | rat (q : ℚ)
  | none
deriving DecidableEq

/-- The profile dict, insertion-ordered. -/
abbrev ProfileDict := List (String × PVal)

/-- Python dict lookup `d.get(k)` as an `Option`. -/
def dictGet (d : ProfileDict) (k : String) : Option PVal :=
  (d.find? (fun kv => kv.1 == k)).map (fun kv => kv.2)

/-- `k in d`. -/
def dictHas (d : ProfileDict) (k : String) : Bool :=
  d.any (fun kv => kv.1 == k)

/-- Python dict assignment `d[k] = v`: overwrite in place, else append. -/
def dictSet (d : ProfileDict) (k : String) (v : PVal) : ProfileDict :=
  if dictHas d k then
    d.map (fun kv => if kv.1 == k then (k, v) else kv)
  else d ++ [(k, v)]

/-- `core.validate_profile` (checks key presence only). -/
def validate_profile (p : ProfileDict) : Except String Unit :=
  let required := ["sex", "age", "height_cm", "weight_kg", "activity", "mode"]
  let missing := required.filter (fun k => !(dictHas p k))
  if missing.isEmpty then .ok ()
  else .error ("missing fields: " ++ String.intercalate ", " missing)

/-- The per-user session `{profile, history, stage, onboard_idx}`. -/
structure BotState where
  profile : ProfileDict
  history : List WeightEntry
  stage : String
  onboard_idx : ℕ
deriving DecidableEq

/-- The default session of `load_state`. -/
def initState : BotState :=
  { profile := [], history := [], stage := "idle", onboard_idx := 0 }

/-- One normally-terminating handler step: the in-memory state at the end,
the state written by `save_state` when it was called, and the reply text. -/
structure StepResult where
  state : BotState
  saved : Option BotState
  replyMsg : String
deriving DecidableEq

/-- Outcome of processing one text message: a normal step, or a Python
exception escaping the handler uncaught. -/
inductive Outcome where
  | done (r : StepResult)
  | crash (err : String)
deriving DecidableEq

/-- New in-memory state of a non-crashing step. -/
def Outcome.newState? : Outcome → Option BotState
  | .done r => some r.state
  | .crash _ => Option.none

/-- What was persisted by the step, if anything. -/
def Outcome.savedState? : Outcome → Option BotState
  | .done r => r.saved
  | .crash _ => Option.none

/-- Reply text of a non-crashing step. -/
def Outcome.replyText? : Outcome → Option String
  | .done r => some r.replyMsg
  | .crash _ => Option.none

/-- Whether the step escaped as an unhandled exception. -/
def Outcome.isCrash : Outcome → Bool
  | .done _ => false
  | .crash _ => true

/-! ## `line_bot/app.py` — string utilities for the handler -/

/-- Splitter for Python `s.split()` (no argument): split on whitespace
runs, discarding empty pieces; `acc` holds the current word reversed. -/
def splitWSAux : List Char → List Char → List String
  | [], acc => if acc.isEmpty then [] else [String.mk acc.reverse]
  | c :: cs, acc =>
    if c.isWhitespace then
      if acc.isEmpty then splitWSAux cs []
      else String.mk acc.reverse :: splitWSAux cs []
    else splitWSAux cs (c :: acc)

/-- Python `s.split()`. -/
def pySplitWS (s : String) : List String := splitWSAux s.data []

/-- Python `s.startswith(p)`. -/
def pyStartsWith (s p : String) : Bool := p.data.isPrefixOf s.data

/-! ## `line_bot/app.py` — constants -/

/-- `ONBOARD_KEYS` (field key, prompt). -/
def ONBOARD_KEYS : List (String × String) :=
  [("sex", "性別を入力（male/female）"),
   ("age", "年齢を入力（整数）"),
   ("height_cm", "身長(cm)を入力。例: 170"),
   ("weight_kg", "体重(kg)を入力。例: 65"),
   ("activity", "活動量（sedentary/light/moderate/active/very_active）"),
   ("mode", "モード（cut/recomp/bulk）"),
   ("goal_weight", "目標体重(kg)を入力（任意。スキップは 'skip'）"),
   ("deadline_days", "期限(日)を入力（任意。スキップは 'skip'）")]

/-- The `HELP` text (abbreviated rendering; its exact wording is not the
subject of any claim). -/
def HELP : String := "使い方: start / plan / log / history / profile / guide / reset / help"

/-- Usage hint replied on a malformed `profile set` (verbatim). -/
def profileSetUsage : String := "例: profile set activity active\n    profile set goal_weight 62"

/-- Fallback reply for unrecognized input in idle state (verbatim). -/
def fallbackMsg : String := "コマンドが見つかりません。'help' を送って使い方を確認してください。"

/-! ## `line_bot/app.py` — value coercions used by `format_plan` -/

/-- Python `int(v)` applied to a stored profile value; `.error` is the
raised `TypeError`/`ValueError`. -/
def pvAsInt : PVal → Except String ℤ
  | .int n => .ok n
  | .rat q => .ok (q.num / (q.den : ℤ))
  | .str s =>
    match parseIntPy s with
    | some n => .ok n
    | Option.none => .error "ValueError: invalid literal for int()"
  | .none => .error "TypeError: int() argument must not be None"

/-- Python `float(v)` applied to a stored profile value. -/
def pvAsFloat : PVal → Except String ℚ
  | .int n => .ok (n : ℚ)
  | .rat q => .ok q
  | .str s =>
    match parseFloatPy s with
    | some q => .ok q
    | Option.none => .error "ValueError: could not convert string to float"
  | .none => .error "TypeError: float() argument must not be None"

/-- A profile value passed where the code calls a `str` method on it;
non-strings raise, `None` is tolerated only by `(x or default)` guards,
which the call sites below apply before this conversion. -/
def pvAsStr : PVal → Except String String
  | .str s => .ok s
  | _ => .error "AttributeError: not a str"

/-- Python truthiness of `profile.get(k)`. -/
def pvTruthy : Option PVal → Bool
  | Option.none => false
  | some .none => false
  | some (.str s) => !(s == "")
  | some (.int n) => !(n == 0)
  | some (.rat q) => !(q == 0)

/-- Simple rendering of a stored value for reply texts (the exact number
formatting of Python is not modelled; no claim depends on it). -/
def pvalRepr : PVal → String
  | .str s => s
  | .int n => toString n
  | .rat q => toString q
  | .none => "None"

/-! ## `line_bot/app.py` — `format_plan` and `guide_text` -/

/-- `app.format_plan`: reads the profile dict, converts the values the way
the Python call does (`KeyError` for missing required keys propagates as
`.error`), calls `build_plan` and formats the reply.  The textual body is
a simplified rendering of the Python f-strings; every claim about this
path only inspects success/failure and the underlying plan. -/
def format_plan (profile : ProfileDict) : Except String String := do
  let goal_w := (dictGet profile "goal_weight").getD .none
  let deadline := (dictGet profile "deadline_days").getD .none
  let sexV ← match dictGet profile "sex" with
    | some v => pure v
    | Option.none => .error "KeyError: sex"
  let ageV ← match dictGet profile "age" with
    | some v => pure v
    | Option.none => .error "KeyError: age"
  let heightV ← match dictGet profile "height_cm" with
    | some v => pure v
    | Option.none => .error "KeyError: height_cm"
  let weightV ← match dictGet profile "weight_kg" with
    | some v => pure v
    | Option.none => .error "KeyError: weight_kg"
  let activityV ← match dictGet profile "activity" with
    | some v => pure v
    | Option.none => .error "KeyError: activity"
  let modeV ← match dictGet profile "mode" with
    | some v => pure v
    | Option.none => .error "KeyError: mode"
  let sex ← match sexV with
    | .none => pure ""
    | v => pvAsStr v
  let age ← pvAsInt ageV
  let height ← pvAsFloat heightV
  let weight ← pvAsFloat weightV
  let activity ← match activityV with
    | .none => pure ""
    | v => pvAsStr v
  let mode ← match modeV with
    | .none => pure ""
    | v => pvAsStr v
  let gw ← if goal_w = PVal.none ∨ goal_w = .str "" ∨ goal_w = .str "skip" then
      pure Option.none
    else (pvAsFloat goal_w).map some
  let dd ← if deadline = PVal.none ∨ deadline = .str "" ∨ deadline = .str "skip" then
      pure Option.none
    else (pvAsInt deadline).map some
  let plan ← build_plan sex age height weight activity mode gw dd
  pure ("📊 プラン\nBMR: " ++ toString plan.bmr ++ " kcal / TDEE: "
    ++ toString plan.tdee ++ " kcal\n目標: " ++ toString plan.target_kcal
    ++ " kcal（維持 " ++ toString plan.maintenance_kcal ++ " kcal, Δ "
    ++ toString plan.delta_kcal ++ "）\nマクロ: P " ++ toString plan.protein_g
    ++ "g / F " ++ toString plan.fat_g ++ "g / C " ++ toString plan.carb_g
    ++ "g" ++ (if plan.notes.isEmpty then "" else "\nNote: "
    ++ String.intercalate " " plan.notes)
    ++ "\n※推定値です。医療上の助言ではありません。")

/-- `app.guide_text` (text abbreviated; selected by mode as in the code). -/
def guide_text (mode : String) : String :=
  let m := if mode = "" then "recomp" else pyLower mode
  if m = "cut" then "🍽 ガイド(cut)"
  else if m = "bulk" then "🍽 ガイド(bulk)"
  else "🍽 ガイド(recomp)"

/-! ## `line_bot/app.py` — onboarding flow -/

/-- What processing one onboarding answer for one field does before the
index advances: re-prompt (validation failure of an enumerated field),
store a parsed value, store nothing (the dead fall-through for an unknown
key), or raise (uncaught conversion error of a numeric field). -/
inductive FieldResult where
  | reprompt (msg : String)
  | store (v : PVal)
  | nostore
  | crash (err : String)
deriving DecidableEq

/-- The per-field branch of the onboarding block (`app.py` lines 212-239). -/
def onboardField (key val : String) : FieldResult :=
  if key = "sex" then
    if pyLower val = "male" ∨ pyLower val = "female" then .store (.str (pyLower val))
    else .reprompt "male/female を入力してください"
  else if key = "age" then
    match parseIntPy val with
    | some n => .store (.int n)
    | Option.none => .crash "ValueError: invalid literal for int() at field age"
  else if key = "height_cm" then
    match parseFloatPy val with
    | some q => .store (.rat q)
    | Option.none => .crash "ValueError: could not convert string to float at field height_cm"
  else if key = "weight_kg" then
    match parseFloatPy val with
    | some q => .store (.rat q)
    | Option.none => .crash "ValueError: could not convert string to float at field weight_kg"
  else if key = "activity" then
    if val = "sedentary" ∨ val = "light" ∨ val = "moderate" ∨ val = "active"
        ∨ val = "very_active" then .store (.str val)
    else .reprompt "sedentary/light/moderate/active/very_active から選択してください"
  else if key = "mode" then
    if pyLower val = "cut" ∨ pyLower val = "recomp" ∨ pyLower val = "bulk" then
      .store (.str (pyLower val))
    else .reprompt "cut/recomp/bulk から選択してください"
  else if key = "goal_weight" then
    if pyLower val = "skip" then .store .none
    else
      match parseFloatPy val with
      | some q => .store (.rat q)
      | Option.none => .crash "ValueError: could not convert string to float at field goal_weight"
  else if key = "deadline_days" then
    if pyLower val = "skip" then .store .none
    else
      match parseIntPy val with
      | some n => .store (.int n)
      | Option.none => .crash "ValueError: invalid literal for int() at field deadline_days"
  else .nostore

/-- `app.py` lines 241-260: advance the onboarding index after a stored
answer, finishing (stage back to idle, plan attempt) or asking the next
question.  `save_state` is called in both branches before replying. -/
def onboardAdvance (state : BotState) : Outcome :=
  let idx := state.onboard_idx + 1
  let done := min idx ONBOARD_KEYS.length
  if ONBOARD_KEYS.length ≤ idx then
    let st := { state with onboard_idx := idx, stage := "idle" }
    let msg :=
      match validate_profile st.profile with
      | .ok _ =>
        match format_plan st.profile with
        | .ok planMsg =>
          "オンボーディング完了！\n" ++ progress_bar (done : ℤ) (ONBOARD_KEYS.length : ℤ) 10
            ++ "\n\n" ++ planMsg
        | .error e => "設定に不足があります: " ++ e
      | .error e => "設定に不足があります: " ++ e
    .done ⟨st, some st, msg⟩
  else
    let st := { state with onboard_idx := idx }
    match ONBOARD_KEYS.get? idx with
    | some kp =>
      .done ⟨st, some st,
        progress_bar (done : ℤ) (ONBOARD_KEYS.length : ℤ) 10 ++ "\n" ++ kp.2⟩
    | Option.none => .crash "IndexError: list index out of range"

/-- `app.py` lines 208-261: one onboarding answer. -/
def onboardStep (state : BotState) (text : String) : Outcome :=
  match ONBOARD_KEYS.get? state.onboard_idx with
  | Option.none => .crash "IndexError: list index out of range"
  | some kp =>
    let val := pyStrip text
    match onboardField kp.1 val with
    | .reprompt msg => .done ⟨state, Option.none, msg⟩
    | .crash e => .crash e
    | .store v =>
      onboardAdvance { state with profile := dictSet state.profile kp.1 v }
    | .nostore => onboardAdvance state

/-! ## `line_bot/app.py` — command handlers -/

/-- The per-key coercion of `profile set` (`app.py` lines 198-199);
`none` is the `ValueError` the handler catches. -/
def coerceValue (key value : String) : Option PVal :=
  if key = "age" then (parseIntPy value).map PVal.int
  else if key = "height_cm" ∨ key = "weight_kg" ∨ key = "goal_weight" then
    (parseFloatPy value).map PVal.rat
  else some (.str value)

/-- `app.py` lines 193-205: the `profile set` handler, applied to the
original-case stripped text.  Missing tokens (`IndexError`) or a failed
coercion (`ValueError`) are caught and yield the usage hint with no state
change and no persistence. -/
def profileSet (state : BotState) (text : String) : Outcome :=
  let parts := pySplitWS text
  match parts.get? 2, parts.get? 3 with
  | some key, some value =>
    match coerceValue key value with
    | some v =>
      let st := { state with profile := dictSet state.profile key v }
      .done ⟨st, some st, "更新しました: " ++ key ++ " = " ++ pvalRepr v⟩
    | Option.none => .done ⟨state, Option.none, profileSetUsage⟩
  | _, _ => .done ⟨state, Option.none, profileSetUsage⟩

/-- The `mode` argument `profile.get("mode", "recomp")` passed to
`suggest_after_log`; a stored `None` becomes the empty string, which
`suggest_after_log` maps to `recomp` exactly as Python's
`(mode or "recomp")` does; a stored non-string raises. -/
def modeArgOf : Option PVal → Except String String
  | Option.none => .ok "recomp"
  | some .none => .ok ""
  | some (.str s) => .ok s
  | some _ => .error "AttributeError: lower"

/-- `app.py` lines 149-163: the `log` handler (whole body inside
`try/except`; note the state is mutated and saved before the suggestion
is computed, so a late error still persists the new entry). -/
def logBranch (state : BotState) (low : String) (now : ℚ) : Outcome :=
  match (pySplitWS low).get? 1 with
  | Option.none => .done ⟨state, Option.none, "ログに失敗: IndexError\n例: log 65.2"⟩
  | some tok =>
    match parseFloatPy tok with
    | Option.none => .done ⟨state, Option.none, "ログに失敗: ValueError\n例: log 65.2"⟩
    | some w =>
      let st := { state with history := state.history ++ [⟨now, round2 w⟩] }
      match modeArgOf (dictGet state.profile "mode") with
      | .error _ => .done ⟨st, some st, "ログに失敗: AttributeError\n例: log 65.2"⟩
      | .ok m =>
        let s := suggest_after_log st.history m 7
        .done ⟨st, some st, "記録しました: " ++ toString w ++ " kg\n" ++ s⟩

/-- `app.py` lines 165-180: the `history` handler (summary lines rendered
in simplified form; no claim inspects their wording). -/
def historyBranch (state : BotState) : Outcome :=
  if state.history.isEmpty then
    .done ⟨state, Option.none, "まだ体重履歴がありません。'log 65.2' のように記録してください。"⟩
  else
    let s7 := summarise_history state.history 7
    let s30 := summarise_history state.history 30
    let line7 := if 0 < s7.count then "\n7日: " ++ toString s7.count ++ "件" else ""
    let line30 := if 0 < s30.count then "\n30日: " ++ toString s30.count ++ "件" else ""
    .done ⟨state, Option.none, "📈 履歴サマリ" ++ line7 ++ line30⟩

/-- `app.py` lines 182-187: the `guide` handler (no `try/except`: a truthy
non-string mode would raise uncaught). -/
def guideBranch (state : BotState) : Outcome :=
  if !(pvTruthy (dictGet state.profile "mode")) then
    .done ⟨state, Option.none, "まずは 'start' でプロフィールを設定してください。"⟩
  else
    match dictGet state.profile "mode" with
    | some (.str m) => .done ⟨state, Option.none, guide_text m⟩
    | _ => .crash "AttributeError: lower"

/-- `app.py` lines 141-147: the `plan` handler. -/
def planBranch (state : BotState) : Outcome :=
  match validate_profile state.profile with
  | .ok _ =>
    match format_plan state.profile with
    | .ok msg => .done ⟨state, Option.none, msg⟩
    | .error e =>
      .done ⟨state, Option.none,
        "プロフィールが未完了です: " ++ e ++ "\n'start' で設定してください。"⟩
  | .error e =>
    .done ⟨state, Option.none,
      "プロフィールが未完了です: " ++ e ++ "\n'start' で設定してください。"⟩

/-- `app.py` lines 131-139: the `start` handler. -/
def startBranch (state : BotState) : Outcome :=
  let st := { state with stage := "onboarding", onboard_idx := 0 }
  match ONBOARD_KEYS.get? 0 with
  | some kp =>
    .done ⟨st, some st,
      "オンボーディングを開始します。\n" ++ progress_bar 0 (ONBOARD_KEYS.length : ℤ) 10
        ++ "\n" ++ kp.2⟩
  | Option.none => .crash "IndexError: list index out of range"

/-- Rendering of `profile show` (simplified JSON). -/
def dictRepr (d : ProfileDict) : String :=
  String.intercalate ", " (d.map (fun kv => kv.1 ++ ": " ++ pvalRepr kv.2))

/-- The body of `app.callback` for one inbound text message (`app.py`
lines 114-264): command dispatch on the lower-cased stripped text, then
the onboarding flow, then the fallback.  `now` is the `datetime.now()`
used by `log`. -/
def handle_text (state : BotState) (text0 : String) (now : ℚ) : Outcome :=
  let text := pyStrip text0
  let low := pyLower text
  if low = "help" ∨ low = "ヘルプ" then .done ⟨state, Option.none, HELP⟩
  else if low = "reset" ∨ low = "リセット" then
    .done ⟨initState, some initState,
      "状態を初期化しました。'start' でオンボーディングを開始できます。"⟩
  else if low = "start" ∨ low = "開始" then startBranch state
  else if low = "plan" then planBranch state
  else if pyStartsWith low "log " then logBranch state low now
  else if low = "history" then historyBranch state
  else if low = "guide" then guideBranch state
  else if pyStartsWith low "profile show" then
    .done ⟨state, Option.none, "プロフィール: " ++ dictRepr state.profile⟩
  else if pyStartsWith low "profile set " then profileSet state text
  else if state.stage = "onboarding" then onboardStep state text
  else .done ⟨state, Option.none, fallbackMsg⟩

/-! ## Helper lemmas -/

/-- `pyRound` unfolded. -/
theorem pyRound_eq (q : ℚ) :
    pyRound q = if q - (⌊q⌋ : ℚ) < 1/2 then ⌊q⌋
      else if 1/2 < q - (⌊q⌋ : ℚ) then ⌊q⌋ + 1
      else if ⌊q⌋ % 2 = 0 then ⌊q⌋ else ⌊q⌋ + 1 := rfl

/-- Rounding never overshoots an integer upper bound. -/
theorem pyRound_le {q : ℚ} {n : ℤ} (h : q ≤ (n : ℚ)) : pyRound q ≤ n := by
  have hf : ⌊q⌋ ≤ n := by
    have h2 := Int.floor_le_floor h
    simpa using h2
  have key : (1 : ℚ)/2 ≤ q - (⌊q⌋ : ℚ) → ⌊q⌋ + 1 ≤ n := by
    intro hr
    have hfl : (⌊q⌋ : ℚ) ≤ q := Int.floor_le q
    have : (⌊q⌋ : ℚ) < (n : ℚ) := by linarith
    exact Int.add_one_le_of_lt (by exact_mod_cast this)
  rw [pyRound_eq]
  split_ifs with h1 h2 h3
  · exact hf
  · exact key (le_of_not_lt h1)
  · exact hf
  · exact key (le_of_not_lt h1)

/-- Rounding never undershoots an integer lower bound. -/
theorem le_pyRound {q : ℚ} {n : ℤ} (h : (n : ℚ) ≤ q) : n ≤ pyRound q := by
  have hf : n ≤ ⌊q⌋ := Int.le_floor.mpr h
  rw [pyRound_eq]
  split_ifs <;> omega

/-- Rounding an integer changes nothing. -/
theorem pyRound_intCast (n : ℤ) : pyRound ((n : ℚ)) = n := by
  rw [pyRound_eq]
  simp [Int.floor_intCast]

/-- Evaluate `round2` on a value that is an exact multiple of 1/100. -/
theorem round2_eval (q : ℚ) (n : ℤ) (h : q * 100 = (n : ℚ)) :
    round2 q = (n : ℚ) / 100 := by
  rw [round2, h, pyRound_intCast]

/-- A valid (lower-cased) sex makes `calculate_bmr` succeed. -/
theorem calculate_bmr_isOk (sex : String) (w h : ℚ) (age : ℤ)
    (hsex : pyLower sex = "male" ∨ pyLower sex = "female") :
    ∃ b, calculate_bmr sex w h age = .ok b := by
  rcases hsex with h1 | h1
  · exact ⟨round2 (10 * w + 6.25 * h - 5 * (age : ℚ) + 5),
      by simp [calculate_bmr, h1]⟩
  · have h2 : ¬ pyLower sex = "male" := by
      rw [h1]; decide
    exact ⟨round2 (10 * w + 6.25 * h - 5 * (age : ℚ) + -161),
      by simp [calculate_bmr, h1, h2]⟩

/-- A valid activity makes `calculate_tdee` succeed. -/
theorem calculate_tdee_isOk (b : ℚ) (act : String)
    (hact : act = "sedentary" ∨ act = "light" ∨ act = "moderate" ∨
      act = "active" ∨ act = "very_active") :
    ∃ t, calculate_tdee b act = .ok t := by
  rcases hact with h1 | h1 | h1 | h1 | h1
  · exact ⟨round2 (b * 1.2), by simp [calculate_tdee, activity_factor, h1]⟩
  · exact ⟨round2 (b * 1.375), by simp [calculate_tdee, activity_factor, h1]⟩
  · exact ⟨round2 (b * 1.55), by simp [calculate_tdee, activity_factor, h1]⟩
  · exact ⟨round2 (b * 1.725), by simp [calculate_tdee, activity_factor, h1]⟩
  · exact ⟨round2 (b * 1.9), by simp [calculate_tdee, activity_factor, h1]⟩

/-- `build_plan` reduces to `build_plan_core` once `bmr`/`tdee` are known. -/
theorem build_plan_eq (sex : String) (age : ℤ) (hcm wkg : ℚ)
    (act mode : String) (gw : Option ℚ) (dd : Option ℤ) (b t : ℚ)
    (hb : calculate_bmr sex wkg hcm age = .ok b)
    (ht : calculate_tdee b act = .ok t) :
    build_plan sex age hcm wkg act mode gw dd =
      .ok (build_plan_core b t wkg mode gw dd) := by
  simp only [build_plan, hb, ht]

/-! ## Claims -/

/-- C2 counterexample: `calculate_bmr("male", 70, 175, 30)` evaluates to
1648.75 (= 6595/4), not the 1673.75 the claim states: the claim's own
formula `10·70 + 6.25·175 − 5·30 + 5` equals 1648.75. -/
theorem claim_C2_counterexample :
    calculate_bmr "male" 70 175 30 = .ok (6595/4) ∧
    (6595 / 4 : ℚ) ≠ 1673.75 := by
  constructor
  · have h1 : pyLower "male" = "male" := by decide
    simp only [calculate_bmr, h1]
    norm_num
    rw [round2_eval _ 164875 (by norm_num)]
    norm_num
  · norm_num

/-- C2 (amended): `calculate_bmr("male", 70, 175, 30)` returns 1648.75,
exactly the Mifflin–St Jeor value `10·70 + 6.25·175 − 5·30 + 5`; the
female variant subtracts 161 instead of adding 5. -/
theorem claim_C2_amended :
    calculate_bmr "male" 70 175 30 = .ok (10*70 + 6.25*175 - 5*30 + 5) ∧
    calculate_bmr "female" 70 175 30 = .ok (10*70 + 6.25*175 - 5*30 - 161) ∧
    (10*70 + 6.25*175 - 5*30 + 5 : ℚ) = 1648.75 := by
  refine ⟨?_, ?_, by norm_num⟩
  · have h1 : pyLower "male" = "male" := by decide
    simp only [calculate_bmr, h1]
    norm_num
    rw [round2_eval _ 164875 (by norm_num)]
    norm_num
  · have h1 : pyLower "female" = "female" := by decide
    have h2 : ¬ (("female" : String) = "male") := by decide
    simp only [calculate_bmr, h1, if_neg h2]
    norm_num
    rw [round2_eval _ 148275 (by norm_num)]
    norm_num

/-- C4: for every input with a valid sex and activity (any mode, any
`goal_weight`/`deadline_days`, including ones producing extreme negative
deltas) `build_plan` succeeds and the returned plan's `target_kcal` is at
least 1200. -/
theorem claim_C4_target_floor (sex : String) (age : ℤ) (hcm wkg : ℚ)
    (act mode : String) (gw : Option ℚ) (dd : Option ℤ)
    (hsex : pyLower sex = "male" ∨ pyLower sex = "female")
    (hact : act = "sedentary" ∨ act = "light" ∨ act = "moderate" ∨
      act = "active" ∨ act = "very_active") :
    (build_plan sex age hcm wkg act mode gw dd).isOk = true ∧
    1200 ≤ (getPlan (build_plan sex age hcm wkg act mode gw dd)).target_kcal := by
  obtain ⟨b, hb⟩ := calculate_bmr_isOk sex wkg hcm age hsex
  obtain ⟨t, ht⟩ := calculate_tdee_isOk b act hact
  rw [build_plan_eq sex age hcm wkg act mode gw dd b t hb ht]
  exact ⟨rfl, le_max_right _ _⟩

/-- C4 witness: the floor holds at a concrete extreme-deficit input
(goal 40 kg below current weight in 10 days). -/
theorem claim_C4_target_floor_witness :
    (build_plan "male" 30 175 80 "sedentary" "cut" (some 40) (some 10)).isOk = true ∧
    1200 ≤ (getPlan (build_plan "male" 30 175 80 "sedentary" "cut"
      (some 40) (some 10))).target_kcal :=
  claim_C4_target_floor "male" 30 175 80 "sedentary" "cut" (some 40) (some 10)
    (by decide) (by decide)

/-- C10: `progress_bar` is total on `total ≥ 0`, `width > 0`: `done` is
clamped into `[0, total]`, the filled cell count lies in `[0, width]`,
filled plus empty cells sum to `width`, and `total = 0` yields zero
filled cells without dividing by zero. -/
theorem claim_C10_progress_bar (done total width : ℤ)
    (htot : 0 ≤ total) (hw : 0 < width) :
    0 ≤ doneClamp done total ∧ doneClamp done total ≤ total ∧
    0 ≤ filledCells done total width ∧ filledCells done total width ≤ width ∧
    filledCells done total width + (width - filledCells done total width) = width ∧
    (total = 0 → filledCells done total width = 0) := by
  have hd0 : 0 ≤ doneClamp done total := le_max_left 0 _
  have hdt : doneClamp done total ≤ total := max_le htot (min_le_right _ _)
  refine ⟨hd0, hdt, ?_, ?_, by ring, ?_⟩
  · unfold filledCells
    split_ifs with h0
    · exact le_refl 0
    · have hpos : (0 : ℚ) < (total : ℚ) := by
        exact_mod_cast lt_of_le_of_ne htot (Ne.symm h0)
      refine Int.le_floor.mpr ?_
      push_cast
      positivity
  · unfold filledCells
    split_ifs with h0
    · exact hw.le
    · have hpos : (0 : ℚ) < (total : ℚ) := by
        exact_mod_cast lt_of_le_of_ne htot (Ne.symm h0)
      have hle : ((width * doneClamp done total : ℤ) : ℚ) / (total : ℚ) ≤ (width : ℚ) := by
        rw [div_le_iff₀ hpos]
        push_cast
        have h1 : (doneClamp done total : ℚ) ≤ (total : ℚ) := by exact_mod_cast hdt
        have h2 : (0 : ℚ) ≤ (width : ℚ) := by exact_mod_cast hw.le
        nlinarith
      calc ⌊((width * doneClamp done total : ℤ) : ℚ) / (total : ℚ)⌋
          ≤ ⌊(width : ℚ)⌋ := Int.floor_le_floor hle
        _ = width := Int.floor_intCast width
  · intro h0
    simp [filledCells, h0]

/-- C10 witness: the bounds at `done = 3`, `total = 8`, `width = 10`
(and, via the clamp, at an out-of-range `done = 12`). -/
theorem claim_C10_progress_bar_witness :
    (0 ≤ doneClamp 3 8 ∧ doneClamp 3 8 ≤ 8) ∧
    (0 ≤ filledCells 3 8 10 ∧ filledCells 3 8 10 ≤ 10) ∧
    (0 ≤ doneClamp 12 8 ∧ doneClamp 12 8 ≤ 8) := by
  obtain ⟨a1, a2, a3, a4, -, -⟩ := claim_C10_progress_bar 3 8 10 (by decide) (by decide)
  obtain ⟨b1, b2, -, -, -, -⟩ := claim_C10_progress_bar 12 8 10 (by decide) (by decide)
  exact ⟨⟨a1, a2⟩, ⟨a3, a4⟩, ⟨b1, b2⟩⟩

/-- Bounds of the safety clamp of `build_plan`. -/
theorem clamp_bounds (raw : ℚ) :
    (-750 : ℚ) ≤ max (min raw 500) (-750) ∧ max (min raw 500) (-750) ≤ 500 :=
  ⟨le_max_right _ _, max_le (min_le_right _ _) (by norm_num)⟩

/-- The `abs(raw_daily - daily_change) > 1e-6` test of `build_plan` holds
exactly when the raw delta lies outside `[-750, 500]` by more than 1e-6. -/
theorem capNote_cond_iff (raw : ℚ) :
    (1/1000000 < |raw - clampDaily raw|) ↔
    (500 + 1/1000000 < raw ∨ raw < -750 - 1/1000000) := by
  unfold clampDaily
  rcases le_or_lt raw 500 with h5 | h5
  · rcases le_or_lt (-750 : ℚ) raw with h7 | h7
    · rw [min_eq_left h5, max_eq_left h7, sub_self, abs_zero]
      constructor
      · intro h; norm_num at h
      · rintro (h | h) <;> linarith
    · rw [min_eq_left (by linarith : raw ≤ (500 : ℚ)),
        max_eq_right (le_of_lt h7),
        abs_of_neg (by linarith : raw - (-750 : ℚ) < 0)]
      constructor
      · intro h; right; linarith
      · rintro (h | h) <;> linarith
  · rw [min_eq_right h5.le, max_eq_left (by norm_num : (-750 : ℚ) ≤ 500),
      abs_of_nonneg (by linarith : (0 : ℚ) ≤ raw - 500)]
    constructor
    · intro h; left; linarith
    · rintro (h | h) <;> linarith

/-- `delta_kcal` of the plan is the rounded fallback-or-clamped delta. -/
theorem build_plan_core_delta (b t w : ℚ) (mode : String)
    (gw : Option ℚ) (dd : Option ℤ) :
    (build_plan_core b t w mode gw dd).delta_kcal =
      pyRound (planDelta (modeCalc mode) (planDeltaNotes w gw dd).1) := rfl

/-- `notes` of the plan is the second component of the targeting block. -/
theorem build_plan_core_notes (b t w : ℚ) (mode : String)
    (gw : Option ℚ) (dd : Option ℤ) :
    (build_plan_core b t w mode gw dd).notes = (planDeltaNotes w gw dd).2 := rfl

/-- The targeting block with a goal and a positive deadline. -/
theorem planDeltaNotes_pos (w gw : ℚ) (dd : ℤ) (hdd : 0 < dd) :
    planDeltaNotes w (some gw) (some dd) =
      (clampDaily (rawDaily w gw dd),
        if 1/1000000 < |rawDaily w gw dd - clampDaily (rawDaily w gw dd)|
        then [capNote] else []) := by
  simp only [planDeltaNotes, if_pos hdd]

/-- The fallback delta always stays inside the safety range. -/
theorem planDelta_bounds (mc : String) (raw : ℚ) :
    (-750 : ℚ) ≤ planDelta mc (clampDaily raw) ∧
    planDelta mc (clampDaily raw) ≤ 500 := by
  obtain ⟨hc1, hc2⟩ := clamp_bounds raw
  unfold planDelta clampDaily
  split_ifs <;> first
  | exact ⟨hc1, hc2⟩
  | exact ⟨by norm_num, by norm_num⟩

/-- C3 counterexample: with `goal_weight = weight + 5.000000005` and
`deadline_days = 77` the raw daily delta is `500.0000005`, strictly
outside `[-750, 500]`, yet no advisory note is appended, because the code
only appends when the clamp changed the value by more than `1e-6`.  This
refutes the claimed "note iff raw delta outside `[-750, 500]`". -/
theorem claim_C3_counterexample :
    (build_plan "male" 30 170 70 "sedentary" "cut"
      (some (75 + 1/200000000)) (some 77)).map Plan.notes = .ok [] ∧
    500 < rawDaily 70 (75 + 1/200000000) 77 := by
  have hraw : rawDaily 70 (75 + 1/200000000) 77 = 500 + 1/2000000 := by
    unfold rawDaily; norm_num
  constructor
  · obtain ⟨b, hb⟩ := calculate_bmr_isOk "male" 70 170 30 (Or.inl (by decide))
    obtain ⟨t, ht⟩ := calculate_tdee_isOk b "sedentary" (Or.inl rfl)
    rw [build_plan_eq "male" 30 170 70 "sedentary" "cut"
      (some (75 + 1/200000000)) (some 77) b t hb ht]
    simp only [Except.map, build_plan_core_notes,
      planDeltaNotes_pos 70 (75 + 1/200000000) 77 (by norm_num)]
    have hclamp : clampDaily (500 + 1/2000000 : ℚ) = 500 := by
      unfold clampDaily
      rw [min_eq_right (by norm_num), max_eq_left (by norm_num)]
    rw [hraw, hclamp,
      if_neg (by
        rw [show (500 + 1/2000000 - 500 : ℚ) = 1/2000000 by norm_num,
          abs_of_pos (by norm_num : (0 : ℚ) < 1/2000000)]
        norm_num)]
  · rw [hraw]; norm_num

/-- C3 (amended): for every valid input with a goal weight and positive
deadline, `delta_kcal` of the plan lies within `[-750, 500]`, and the
advisory note is appended iff the raw daily delta
`(goal_weight − weight_kg)·7700/deadline_days` lies outside `[-750, 500]`
by more than the `1e-6` tolerance the code uses. -/
theorem claim_C3_amended (sex : String) (age : ℤ) (hcm wkg : ℚ)
    (act mode : String) (gw : ℚ) (dd : ℤ)
    (hsex : pyLower sex = "male" ∨ pyLower sex = "female")
    (hact : act = "sedentary" ∨ act = "light" ∨ act = "moderate" ∨
      act = "active" ∨ act = "very_active")
    (hdd : 0 < dd) :
    (build_plan sex age hcm wkg act mode (some gw) (some dd)).isOk = true ∧
    (-750 ≤ (getPlan (build_plan sex age hcm wkg act mode (some gw)
        (some dd))).delta_kcal ∧
      (getPlan (build_plan sex age hcm wkg act mode (some gw)
        (some dd))).delta_kcal ≤ 500) ∧
    ((getPlan (build_plan sex age hcm wkg act mode (some gw)
        (some dd))).notes ≠ [] ↔
      (500 + 1/1000000 < rawDaily wkg gw dd ∨
        rawDaily wkg gw dd < -750 - 1/1000000)) := by
  obtain ⟨b, hb⟩ := calculate_bmr_isOk sex wkg hcm age hsex
  obtain ⟨t, ht⟩ := calculate_tdee_isOk b act hact
  rw [build_plan_eq sex age hcm wkg act mode (some gw) (some dd) b t hb ht]
  simp only [getPlan]
  refine ⟨rfl, ?_, ?_⟩
  · rw [build_plan_core_delta, planDeltaNotes_pos wkg gw dd hdd]
    obtain ⟨h1, h2⟩ := planDelta_bounds (modeCalc mode) (rawDaily wkg gw dd)
    exact ⟨le_pyRound (by exact_mod_cast h1), pyRound_le (by exact_mod_cast h2)⟩
  · rw [build_plan_core_notes, planDeltaNotes_pos wkg gw dd hdd]
    constructor
    · intro hne
      by_cases h : 1/1000000 < |rawDaily wkg gw dd - clampDaily (rawDaily wkg gw dd)|
      · exact (capNote_cond_iff (rawDaily wkg gw dd)).mp h
      · rw [if_neg h] at hne
        exact absurd rfl hne
    · intro hr
      rw [if_pos ((capNote_cond_iff (rawDaily wkg gw dd)).mpr hr)]
      simp

/-- C3 witness: at goal 10 kg below current weight in 100 days the raw
delta is −770, the stored delta is clamped into the range and the note
condition holds. -/
theorem claim_C3_amended_witness :
    (build_plan "male" 30 175 80 "sedentary" "cut" (some 70) (some 100)).isOk
      = true ∧
    (-750 ≤ (getPlan (build_plan "male" 30 175 80 "sedentary" "cut" (some 70)
        (some 100))).delta_kcal ∧
      (getPlan (build_plan "male" 30 175 80 "sedentary" "cut" (some 70)
        (some 100))).delta_kcal ≤ 500) ∧
    ((getPlan (build_plan "male" 30 175 80 "sedentary" "cut" (some 70)
        (some 100))).notes ≠ [] ↔
      (500 + 1/1000000 < rawDaily 80 70 100 ∨
        rawDaily 80 70 100 < -750 - 1/1000000)) :=
  claim_C3_amended "male" 30 175 80 "sedentary" "cut" 70 100
    (Or.inl (by decide)) (Or.inl rfl) (by norm_num)

/-- `round(0, 2) = 0`. -/
theorem round2_zero : round2 (0 : ℚ) = 0 := by
  rw [round2_eval 0 0 (by norm_num)]
  norm_num

/-- C6: `summarise_history` returns the empty summary `{count: 0}` on an
empty history, and on every single-entry history with a non-negative
window the summary's `delta` is 0 and its `trend` is the flat arrow. -/
theorem claim_C6_summary_base :
    (∀ days : ℤ, summarise_history [] days = .empty) ∧
    (∀ (e : WeightEntry) (days : ℤ), 0 ≤ days →
      (summarise_history [e] days).deltaVal? = some 0 ∧
      (summarise_history [e] days).trendVal? = some "→") := by
  constructor
  · intro days; rfl
  · intro e days hd
    have hdb : daysBetween e.date e.date = 0 := by
      unfold daysBetween
      rw [sub_self, Int.floor_zero]
    have hfil : [e].filter (fun x => decide (daysBetween e.date x.date ≤ days)) = [e] := by
      simp [List.filter, hdb, hd]
    unfold summarise_history
    simp only [List.getLast?_singleton, hfil]
    simp [HistorySummary.deltaVal?, HistorySummary.trendVal?, round2_zero]
    norm_num

/-- C6 witness: the empty summary at window 7 and the single-entry facts
at entry (day 5, 70 kg), window 7. -/
theorem claim_C6_summary_base_witness :
    summarise_history [] 7 = .empty ∧
    (summarise_history [⟨5, 70⟩] 7).deltaVal? = some 0 ∧
    (summarise_history [⟨5, 70⟩] 7).trendVal? = some "→" := by
  obtain ⟨h1, h2⟩ := claim_C6_summary_base
  exact ⟨h1 7, (h2 ⟨5, 70⟩ 7 (by norm_num)).1, (h2 ⟨5, 70⟩ 7 (by norm_num)).2⟩

/-- C9: for every non-empty history and window `days ≥ 0` the summary is
never the empty `{count: 0}` — the last entry always survives the filter
because the cutoff is its own timestamp — and its count is at least 1. -/
theorem claim_C9_nonempty_window (hist : List WeightEntry) (days : ℤ)
    (hne : hist ≠ []) (hdays : 0 ≤ days) :
    summarise_history hist days ≠ .empty ∧
    1 ≤ (summarise_history hist days).count := by
  have hlast := List.getLast?_eq_getLast hist hne
  have hmem : hist.getLast hne ∈ hist.filter
      (fun x => decide (daysBetween (hist.getLast hne).date x.date ≤ days)) := by
    rw [List.mem_filter]
    refine ⟨List.getLast_mem hne, ?_⟩
    rw [decide_eq_true_iff]
    unfold daysBetween
    rw [sub_self, Int.floor_zero]
    exact hdays
  cases hw : hist.filter
      (fun x => decide (daysBetween (hist.getLast hne).date x.date ≤ days)) with
  | nil => rw [hw] at hmem; exact absurd hmem (List.not_mem_nil _)
  | cons w ws =>
    unfold summarise_history
    rw [hlast]
    simp only [hw]
    constructor
    · intro hcontra
      exact HistorySummary.noConfusion hcontra
    · simp [HistorySummary.count]

/-- C9 witness: a one-entry history with window 0 still yields a
non-empty summary. -/
theorem claim_C9_nonempty_window_witness :
    summarise_history [⟨0, 70⟩] 0 ≠ .empty ∧
    1 ≤ (summarise_history [⟨0, 70⟩] 0).count :=
  claim_C9_nonempty_window [⟨0, 70⟩] 0 (by simp) (le_refl 0)

/-- C7: in cut mode, for any history with at least two entries in the
recent window and non-decreasing timestamps, `suggest_after_log` returns
the "losing too fast" message iff the daily change
`(last.weight − first.weight) / max(days_between, 1)` is below −0.15, the
"gaining" message iff it exceeds 0.05, and the "good pace" message
otherwise; and the two-point history `[80, 79]` one day apart reaches the
"too fast" branch. -/
theorem claim_C7_cut_classification (hist : List WeightEntry) (nwin : ℕ)
    (hne : hist ≠ [])
    (hlen : 2 ≤ (lastWindow hist nwin).length)
    (hsort : hist.Pairwise (fun a b => a.date ≤ b.date)) :
    (suggest_after_log hist "cut" nwin =
      (let f := (lastWindow hist nwin).head?.getD ⟨0, 0⟩
       let l := (lastWindow hist nwin).getLast?.getD ⟨0, 0⟩
       let dc := (l.weight - f.weight) /
         ((max (daysBetween l.date f.date) 1 : ℤ) : ℚ)
       if dc < -0.15 then msgCutTooFast
       else if 0.05 < dc then msgCutGaining
       else msgCutGood)) ∧
    suggest_after_log [⟨0, 80⟩, ⟨1, 79⟩] "cut" 7 = msgCutTooFast := by
  constructor
  · have hsortw : (lastWindow hist nwin).Pairwise (fun a b => a.date ≤ b.date) := by
      unfold lastWindow
      split_ifs
      · exact hsort
      · exact List.Pairwise.sublist (List.drop_sublist _ _) hsort
    cases hhist : hist with
    | nil => exact absurd hhist hne
    | cons h t =>
      subst hhist
      cases hlw : lastWindow (h :: t) nwin with
      | nil => rw [hlw] at hlen; simp at hlen
      | cons f rest =>
        cases hrest : rest with
        | nil => rw [hlw, hrest] at hlen; simp at hlen
        | cons s rest2 =>
          subst hrest
          rw [hlw] at hsortw
          have hfl : f.date ≤ ((s :: rest2).getLast (by simp)).date := by
            have hmem : (s :: rest2).getLast (by simp) ∈ s :: rest2 :=
              List.getLast_mem _
            exact (List.pairwise_cons.mp hsortw).1 _ hmem
          have hd0 : 0 ≤ daysBetween ((s :: rest2).getLast (by simp)).date f.date := by
            unfold daysBetween
            rw [Int.le_floor]
            push_cast
            linarith
          have hif : (if daysBetween ((s :: rest2).getLast (by simp)).date f.date = 0
              then (1 : ℤ)
              else daysBetween ((s :: rest2).getLast (by simp)).date f.date) =
              max (daysBetween ((s :: rest2).getLast (by simp)).date f.date) 1 := by
            split_ifs with h0
            · rw [h0]; decide
            · rw [max_eq_left (by omega)]
          have hcl : pyLower "cut" = "cut" := by decide
          have hnec : ¬ (("cut" : String) = "") := by decide
          have hgl : (s :: rest2).getLast? = some ((s :: rest2).getLast (by simp)) :=
            List.getLast?_eq_getLast _ (by simp)
          unfold suggest_after_log
          simp only [hcl, if_neg hnec, hlw, List.head?_cons,
            List.getLast?_cons_cons, if_pos (by rw [hlw] at hlen; exact hlen),
            hgl, Option.getD_some, if_true, hif]
  · have hcl : pyLower "cut" = "cut" := by decide
    have hnec : ¬ (("cut" : String) = "") := by decide
    unfold suggest_after_log
    simp only [hcl, if_neg hnec, lastWindow]
    norm_num [daysBetween]

/-- C7 witness: the classification shape instantiated at the concrete
two-point history `[(day 0, 80), (day 1, 79)]` with window 7. -/
theorem claim_C7_cut_classification_witness :
    (suggest_after_log [⟨0, 80⟩, ⟨1, 79⟩] "cut" 7 =
      (let f := (lastWindow [⟨0, 80⟩, ⟨1, 79⟩] 7).head?.getD ⟨0, 0⟩
       let l := (lastWindow [⟨0, 80⟩, ⟨1, 79⟩] 7).getLast?.getD ⟨0, 0⟩
       let dc := (l.weight - f.weight) /
         ((max (daysBetween l.date f.date) 1 : ℤ) : ℚ)
       if dc < -0.15 then msgCutTooFast
       else if 0.05 < dc then msgCutGaining
       else msgCutGood)) ∧
    suggest_after_log [⟨0, 80⟩, ⟨1, 79⟩] "cut" 7 = msgCutTooFast :=
  claim_C7_cut_classification [⟨0, 80⟩, ⟨1, 79⟩] 7 (by simp) (by decide)
    (by simp [List.pairwise_cons])

/-- C8: for every session and every malformed `profile set` text — fewer
than four whitespace-separated tokens (Python `IndexError` on `parts[2]`
or `parts[3]`), or a value failing the per-key coercion (`age` → int,
`height_cm`/`weight_kg`/`goal_weight` → float) — the handler replies with
the usage hint, leaves the session unchanged and persists nothing. -/
theorem claim_C8_profile_set_malformed (st : BotState) (text : String)
    (h : (pySplitWS text).get? 3 = Option.none ∨
      (∃ k v, (pySplitWS text).get? 2 = some k ∧
        (pySplitWS text).get? 3 = some v ∧ coerceValue k v = Option.none)) :
    profileSet st text = .done ⟨st, Option.none, profileSetUsage⟩ := by
  simp only [profileSet]
  rcases h with h3 | ⟨k, v, h2, h3, hc⟩
  · cases h2 : (pySplitWS text).get? 2 <;> rw [h3]
  · rw [h2, h3]
    simp only [hc]

/-- C8 witness: `profile set age abc` (value fails the int coercion)
leaves the default session untouched, persists nothing and replies with
the usage hint; the same handler result for `profile set age` (missing
value token). -/
theorem claim_C8_profile_set_malformed_witness :
    profileSet initState "profile set age abc" =
      .done ⟨initState, Option.none, profileSetUsage⟩ ∧
    profileSet initState "profile set age" =
      .done ⟨initState, Option.none, profileSetUsage⟩ :=
  ⟨claim_C8_profile_set_malformed initState "profile set age abc"
      (Or.inr ⟨"age", "abc", by decide, by decide, by decide⟩),
    claim_C8_profile_set_malformed initState "profile set age"
      (Or.inl (by decide))⟩

/-- C1: the claim fails on the code.  In stage `onboarding` at the `age`
field, the non-command input `"abc"` makes the handler evaluate
`int("abc")` with no surrounding `try`, so the `ValueError` escapes the
state machine as an unhandled exception (no re-prompt, no reply) instead
of re-prompting with `onboard_idx` unchanged.  The enumerated fields
(`sex`/`activity`/`mode`) do re-prompt, which shows the re-prompt
behaviour is the intent and the missing `try` on the numeric fields a
slip. -/
theorem claim_C1_numeric_parse_crash :
    handle_text ⟨[("sex", .str "male")], [], "onboarding", 1⟩ "abc" 0 =
      .crash "ValueError: invalid literal for int() at field age" ∧
    (handle_text ⟨[("sex", .str "male")], [], "onboarding", 1⟩ "abc" 0).isCrash
      = true ∧
    handle_text ⟨[], [], "onboarding", 0⟩ "other" 0 =
      .done ⟨⟨[], [], "onboarding", 0⟩, Option.none,
        "male/female を入力してください"⟩ := by
  refine ⟨by decide, by decide, by decide⟩

/-- C5 counterexample: `profile set age -5` on a fresh session stores and
persists `age = -5`, a non-positive integer, so the data-model domain
`age : positive integer` is not maintained by the state machine. -/
theorem claim_C5_counterexample :
    (handle_text initState "profile set age -5" 0).newState? =
      some ⟨[("age", .int (-5))], [], "idle", 0⟩ ∧
    (handle_text initState "profile set age -5" 0).savedState? =
      some ⟨[("age", .int (-5))], [], "idle", 0⟩ ∧
    ¬(0 < (-5 : ℤ)) := by
  refine ⟨by decide, by decide, by decide⟩

/-- C5 (amended): the conversation state machine stores the numeric
profile fields with the right types — `age` as the parsed integer,
`height_cm`/`weight_kg` as the parsed real, both in onboarding and in
`profile set` — but performs no positivity/range check: whatever value
parses, including zero and negative ones, is stored as-is. -/
theorem claim_C5_amended (val : String) :
    (∀ n : ℤ, parseIntPy val = some n →
      onboardField "age" val = .store (.int n) ∧
      coerceValue "age" val = some (.int n)) ∧
    (∀ q : ℚ, parseFloatPy val = some q →
      onboardField "height_cm" val = .store (.rat q) ∧
      onboardField "weight_kg" val = .store (.rat q) ∧
      coerceValue "height_cm" val = some (.rat q) ∧
      coerceValue "weight_kg" val = some (.rat q)) := by
  constructor
  · intro n hn
    exact ⟨by simp [onboardField, hn], by simp [coerceValue, hn]⟩
  · intro q hq
    exact ⟨by simp [onboardField, hq], by simp [onboardField, hq],
      by simp [coerceValue, hq], by simp [coerceValue, hq]⟩

/-- C5 witness: the input `"-5"` parses for every numeric field and is
stored negative, with the coerced type but no domain check. -/
theorem claim_C5_amended_witness :
    (onboardField "age" "-5" = .store (.int (-5)) ∧
      coerceValue "age" "-5" = some (.int (-5))) ∧
    (onboardField "height_cm" "-5" = .store (.rat (-5)) ∧
      onboardField "weight_kg" "-5" = .store (.rat (-5)) ∧
      coerceValue "height_cm" "-5" = some (.rat (-5)) ∧
      coerceValue "weight_kg" "-5" = some (.rat (-5))) :=
  ⟨(claim_C5_amended "-5").1 (-5) (by decide),
    (claim_C5_amended "-5").2 (-5) (by rfl)⟩
